import Mathlib

/-!
Verification of the content index and cursor pagination subsystem of the
"stupid" repository: `src/lib/schema.ts`, `src/lib/pagination.ts`, the
content module (`getAllMedia` / `buildMediaIndex` / `getMediaIndex` and
friends), and `src/app/api/feed/route.ts`, as a shallow embedding in Lean.

Modelling conventions:
* TypeScript strings are Lean `String`s; byte-level operations (`Buffer`)
  are modelled at code-point level, which is exact for the ASCII data
  handled here.
* JavaScript numbers occurring in this subsystem are integers (the output
  of `Number.parseInt` and date arithmetic); they are modelled as `Int`
  (`Nat` for the validated page limit).
* `new Date(s).getTime()` is environment-defined beyond ISO-8601 input, so
  it is threaded through as an explicit parameter `getTime : String → Int`;
  `getTimeISO` below embeds it concretely on UTC ISO-8601 strings.
* The module-level mutable cache of the content module is modelled by
  explicit state passing (`ContentState`, at the end of the definitions).
* `gray-matter` frontmatter values are modelled by `JPrim` / `Raw…`
  structures: each schema field carries either nothing (absent key) or a
  primitive YAML value whose runtime type the zod schema then checks.
-/

namespace Stupid

/-- `MediaTypeSchema = z.enum(["video", "image", "game", "other"])`. -/
inductive MediaType where
  | video
  | image
  | game
  | other
deriving DecidableEq

/-- `MediaSourceSchema = z.enum(["sora", "upload", "external"])`. -/
inductive MediaSource where
  | sora
  | upload
  | externalSource
deriving DecidableEq

/-- `VisibilitySchema = z.enum(["public", "unlisted"])`. -/
inductive Visibility where
  | public
  | unlisted
deriving DecidableEq

/-- `VideoSourceSchema`: a source with `src` and `type`, both strings. -/
structure VideoSource where
  src : String
  type : String
deriving DecidableEq

/-- `SoraMetadataSchema`: `username` required, the rest optional strings. -/
structure SoraMetadata where
  username : String
  soraId : Option String
  prompt : Option String
  model : Option String
deriving DecidableEq

/-- `MediaAssetsSchema`: all fields optional. -/
structure MediaAssets where
  poster : Option String
  src : Option String
  sources : Option (List VideoSource)
  width : Option Int
  height : Option Int
  durationSec : Option Int
  embedUrl : Option String
deriving DecidableEq

/-- `MediaFrontmatterSchema` output type (`MediaFrontmatter` in schema.ts). -/
structure MediaFrontmatter where
  title : String
  createdAt : String
  type : MediaType
  source : MediaSource
  sora : Option SoraMetadata
  assets : MediaAssets
  tags : List String
  description : Option String
  visibility : Visibility
deriving DecidableEq

/-- `MediaItemSchema = MediaFrontmatterSchema.extend({id, slug, content})`. -/
structure MediaItem extends MediaFrontmatter where
  id : String
  slug : String
  content : String
deriving DecidableEq

/-- `FeedResponseSchema`: one page of the paginated feed. -/
structure FeedResponse where
  items : List MediaItem
  nextCursor : Option String
  hasMore : Bool
deriving DecidableEq

/-- `FeedQuerySchema` output type: the validated feed query.  `limit` is the
zod-validated number (an integer in `[1,100]` on every path through the
route, default 20). -/
structure FeedQuery where
  cursor : Option String
  limit : Nat
  type : Option MediaType
  tag : Option String
  search : Option String
deriving DecidableEq

/-- A primitive YAML/JSON value as delivered by `gray-matter` for one
frontmatter key. -/
inductive JPrim where
  | str (s : String)
  | num (n : Int)
  | boolean (b : Bool)
  | null
deriving DecidableEq

/-- Raw (pre-validation) shape of a `sora` frontmatter block. -/
structure RawSora where
  username : Option JPrim
  soraId : Option JPrim
  prompt : Option JPrim
  model : Option JPrim
deriving DecidableEq

/-- Raw shape of one entry of `assets.sources`. -/
structure RawVideoSource where
  src : Option JPrim
  type : Option JPrim
deriving DecidableEq

/-- Raw (pre-validation) shape of an `assets` frontmatter block. -/
structure RawAssets where
  poster : Option JPrim
  src : Option JPrim
  sources : Option (List RawVideoSource)
  width : Option JPrim
  height : Option JPrim
  durationSec : Option JPrim
  embedUrl : Option JPrim
deriving DecidableEq

/-- Raw (pre-validation) frontmatter of one MDX file: for each key of
`MediaFrontmatterSchema`, either `none` (key absent) or the primitive value
found in the file.  Unknown extra keys are ignored by zod and hence not
modelled. -/
structure RawFrontmatter where
  title : Option JPrim
  createdAt : Option JPrim
  type : Option JPrim
  source : Option JPrim
  visibility : Option JPrim
  tags : Option (List JPrim)
  description : Option JPrim
  sora : Option RawSora
  assets : Option RawAssets
deriving DecidableEq

/-- One MDX file after `gray-matter`: frontmatter `data` plus body. -/
structure RawDoc where
  data : RawFrontmatter
  content : String
deriving DecidableEq

/-- `z.string()` on a required key: present and a string, else failure. -/
def zReqString : Option JPrim → Option String
  | some (JPrim.str s) => some s
  | _ => none

/-- `z.string().optional()`: absent is fine, a present value must be a
string. -/
def zOptString : Option JPrim → Option (Option String)
  | none => some none
  | some (JPrim.str s) => some (some s)
  | some _ => none

/-- `z.number().optional()`. -/
def zOptNum : Option JPrim → Option (Option Int)
  | none => some none
  | some (JPrim.num n) => some (some n)
  | some _ => none

/-- `MediaTypeSchema.parse` on a string value. -/
def parseMediaType (s : String) : Option MediaType :=
  if s = "video" then some MediaType.video
  else if s = "image" then some MediaType.image
  else if s = "game" then some MediaType.game
  else if s = "other" then some MediaType.other
  else none

/-- `MediaSourceSchema.parse` on a string value. -/
def parseMediaSource (s : String) : Option MediaSource :=
  if s = "sora" then some MediaSource.sora
  else if s = "upload" then some MediaSource.upload
  else if s = "external" then some MediaSource.externalSource
  else none

/-- `VisibilitySchema.parse` on a string value. -/
def parseVisibility (s : String) : Option Visibility :=
  if s = "public" then some Visibility.public
  else if s = "unlisted" then some Visibility.unlisted
  else none

/-- `MediaSourceSchema.default("sora")`: absent key defaults, a present key
must be a valid enum string. -/
def zSourceField : Option JPrim → Option MediaSource
  | none => some MediaSource.sora
  | some (JPrim.str s) => parseMediaSource s
  | some _ => none

/-- `VisibilitySchema.default("public")`. -/
def zVisibilityField : Option JPrim → Option Visibility
  | none => some Visibility.public
  | some (JPrim.str s) => parseVisibility s
  | some _ => none

/-- `MediaTypeSchema` on the required `type` key. -/
def zTypeField : Option JPrim → Option MediaType
  | some (JPrim.str s) => parseMediaType s
  | _ => none

/-- `z.array(z.string()).default([])` for `tags`. -/
def zTagsField : Option (List JPrim) → Option (List String)
  | none => some []
  | some xs => xs.mapM fun v =>
      match v with
      | JPrim.str s => some s
      | _ => none

/-- `SoraMetadataSchema.parse`. -/
def parseSoraMetadata (r : RawSora) : Option SoraMetadata := do
  let username ← zReqString r.username
  let soraId ← zOptString r.soraId
  let prompt ← zOptString r.prompt
  let model ← zOptString r.model
  some { username := username, soraId := soraId, prompt := prompt, model := model }

/-- `VideoSourceSchema.parse`. -/
def parseVideoSource (r : RawVideoSource) : Option VideoSource := do
  let src ← zReqString r.src
  let t ← zReqString r.type
  some { src := src, type := t }

/-- `MediaAssetsSchema.parse`. -/
def parseMediaAssets (r : RawAssets) : Option MediaAssets := do
  let poster ← zOptString r.poster
  let src ← zOptString r.src
  let sources ←
    match r.sources with
    | none => some none
    | some xs => (xs.mapM parseVideoSource).map some
  let width ← zOptNum r.width
  let height ← zOptNum r.height
  let durationSec ← zOptNum r.durationSec
  let embedUrl ← zOptString r.embedUrl
  some { poster := poster, src := src, sources := sources, width := width,
         height := height, durationSec := durationSec, embedUrl := embedUrl }

/-- `MediaFrontmatterSchema.parse(data)`, as an `Option` (zod throws on
failure; the sole caller wraps the call in try/catch, modelled by `none`).
Note that `createdAt` is validated as `z.string()` only — the schema does
not check that the string parses as a date. -/
def MediaFrontmatterSchema_parse (d : RawFrontmatter) : Option MediaFrontmatter := do
  let title ← zReqString d.title
  let createdAt ← zReqString d.createdAt
  let mediaType ← zTypeField d.type
  let source ← zSourceField d.source
  let sora ←
    match d.sora with
    | none => some none
    | some r => (parseSoraMetadata r).map some
  let assets ←
    match d.assets with
    | none => none
    | some r => parseMediaAssets r
  let tags ← zTagsField d.tags
  let description ← zOptString d.description
  let visibility ← zVisibilityField d.visibility
  some { title := title, createdAt := createdAt, type := mediaType,
         source := source, sora := sora, assets := assets, tags := tags,
         description := description, visibility := visibility }

/-- JS `haystack.startsWith`-at-the-front on code-point lists. -/
def startsWithList : List Char → List Char → Bool
  | _, [] => true
  | [], _ :: _ => false
  | c :: cs, d :: ds => c == d && startsWithList cs ds

/-- JS `String.prototype.includes`: contiguous substring test (the empty
needle is always found). -/
def containsList (needle : List Char) : List Char → Bool
  | [] => needle.isEmpty
  | c :: cs => startsWithList (c :: cs) needle || containsList needle cs

/-- `hay.includes(needle)` on strings. -/
def strIncludes (hay needle : String) : Bool :=
  containsList needle.data hay.data

/-! The remaining JS string primitives are given structurally recursive
code-point-level definitions (the library's `String` loops are not needed
and the data here is ASCII, on which these agree with JS exactly). -/

/-- Helper for `jsSplit`: split at every occurrence of `sep`. -/
def jsSplitAux (sep : Char) : List Char → List Char → List String
  | [], acc => [String.mk acc.reverse]
  | c :: cs, acc =>
    if c = sep then String.mk acc.reverse :: jsSplitAux sep cs []
    else jsSplitAux sep cs (c :: acc)

/-- `s.split(sep)` for a one-character separator (all separators in this
code base are single characters): the empty string yields `[""]`, like in
JS. -/
def jsSplit (s : String) (sep : Char) : List String :=
  jsSplitAux sep s.data []

/-- `s.toLowerCase()` (ASCII). -/
def strToLower (s : String) : String :=
  String.mk (s.data.map Char.toLower)

/-- `s.trim()`. -/
def strTrim (s : String) : String :=
  String.mk (((s.data.dropWhile Char.isWhitespace).reverse.dropWhile
    Char.isWhitespace).reverse)

/-- `s.endsWith(suff)`. -/
def strEndsWith (s suff : String) : Bool :=
  startsWithList s.data.reverse suff.data.reverse

/-- `s.replace(suffixRegex, "")`: remove one trailing occurrence of
`suff`, if present. -/
def strStripSuffix (s suff : String) : String :=
  if strEndsWith s suff then String.mk (s.data.take (s.data.length - suff.data.length))
  else s

/-- Decimal value of a digit run. -/
def digitsToNat (cs : List Char) : Nat :=
  cs.foldl (fun acc c => acc * 10 + (c.toNat - 48)) 0

/-- Lexicographic order on code points, i.e. the JS `<` on strings (and
the order "slug ascending" refers to). -/
def lexLtList : List Char → List Char → Bool
  | [], [] => false
  | [], _ :: _ => true
  | _ :: _, [] => false
  | c :: cs, d :: ds =>
    if c.toNat < d.toNat then true
    else if d.toNat < c.toNat then false
    else lexLtList cs ds

/-- `a < b` on strings, JS-style. -/
def strLexLt (a b : String) : Bool :=
  lexLtList a.data b.data

/-! ## The content module

The functions below embed the content module of the repository.  The
module-level cached index is made explicit: the pure functions take the
built index `idx : List MediaItem` (the value of `getMediaIndex()`) as
their first argument; the stateful cache itself is modelled further down
(`ContentState`).  The TypeScript functions take `includeUnlisted = false`
as a defaulted parameter; every caller inside this subsystem uses the
default, which is passed explicitly here. -/

/-- `getAllMedia(includeUnlisted = false)`. -/
def getAllMedia (idx : List MediaItem) (includeUnlisted : Bool) : List MediaItem :=
  if includeUnlisted then idx
  else idx.filter fun item => decide (item.visibility = Visibility.public)

/-- `getMediaByType(type)` (the TS parameter is the enum's string value). -/
def getMediaByType (idx : List MediaItem) (type : MediaType) : List MediaItem :=
  (getAllMedia idx false).filter fun item => decide (item.type = type)

/-- `getMediaByTag(tag)`: exact, case-sensitive membership in `tags`. -/
def getMediaByTag (idx : List MediaItem) (tag : String) : List MediaItem :=
  (getAllMedia idx false).filter fun item => item.tags.any fun t => decide (t = tag)

/-- `searchMedia(query)`: case-insensitive substring match against title,
description, or any tag. -/
def searchMedia (idx : List MediaItem) (query : String) : List MediaItem :=
  let lowerQuery := strToLower query
  (getAllMedia idx false).filter fun item =>
    strIncludes (strToLower item.title) lowerQuery ||
    (match item.description with
     | some d => strIncludes (strToLower d) lowerQuery
     | none => false) ||
    item.tags.any fun tag => strIncludes (strToLower tag) lowerQuery

/-! ## Cursor encoding (base64)

`createCursor` uses `Buffer.from(text).toString("base64")` and
`parseCursor` uses `Buffer.from(cursor, "base64").toString("utf-8")`.
Bytes are modelled as code points (exact for ASCII data).  Node's base64
decoder accepts the standard and the url-safe alphabet and skips every
other character (including `=` padding), which is what `b64Val` plus
`filterMap` reproduce. -/

/-- Value of one base64 alphabet character (standard and url-safe), `none`
for characters Node's decoder skips. -/
def b64Val (c : Char) : Option Nat :=
  if 'A' ≤ c ∧ c ≤ 'Z' then some (c.toNat - 65)
  else if 'a' ≤ c ∧ c ≤ 'z' then some (c.toNat - 97 + 26)
  else if '0' ≤ c ∧ c ≤ '9' then some (c.toNat - 48 + 52)
  else if c = '+' ∨ c = '-' then some 62
  else if c = '/' ∨ c = '_' then some 63
  else none

/-- Decode a list of 6-bit values into bytes (a trailing single value
yields no byte). -/
def b64DecodeVals : List Nat → List Nat
  | v1 :: v2 :: v3 :: v4 :: rest =>
      (v1 * 4 + v2 / 16) :: ((v2 % 16) * 16 + v3 / 4) :: ((v3 % 4) * 64 + v4)
        :: b64DecodeVals rest
  | [v1, v2, v3] => [v1 * 4 + v2 / 16, (v2 % 16) * 16 + v3 / 4]
  | [v1, v2] => [v1 * 4 + v2 / 16]
  | _ => []

/-- The standard base64 alphabet, for encoding. -/
def b64Chars : List Char :=
  "ABCDEFGHIJKLMNOPQRSTUVWXYZabcdefghijklmnopqrstuvwxyz0123456789+/".data

/-- Encode bytes as base64 characters with `=` padding. -/
def b64EncodeBytes : List Nat → List Char
  | b1 :: b2 :: b3 :: rest =>
      b64Chars.getD (b1 / 4) 'A' :: b64Chars.getD ((b1 % 4) * 16 + b2 / 16) 'A'
        :: b64Chars.getD ((b2 % 16) * 4 + b3 / 64) 'A' :: b64Chars.getD (b3 % 64) 'A'
        :: b64EncodeBytes rest
  | [b1, b2] =>
      [b64Chars.getD (b1 / 4) 'A', b64Chars.getD ((b1 % 4) * 16 + b2 / 16) 'A',
       b64Chars.getD ((b2 % 16) * 4) 'A', '=']
  | [b1] =>
      [b64Chars.getD (b1 / 4) 'A', b64Chars.getD ((b1 % 4) * 16) 'A', '=', '=']
  | [] => []

/-- `Buffer.from(s).toString("base64")` (bytes modelled as code points). -/
def encodeBase64 (s : String) : String :=
  String.mk (b64EncodeBytes (s.data.map Char.toNat))

/-- `Buffer.from(s, "base64").toString("utf-8")` (bytes modelled as code
points). -/
def decodeBase64 (s : String) : String :=
  String.mk ((b64DecodeVals (s.data.filterMap b64Val)).map Char.ofNat)

/-! ## src/lib/pagination.ts -/

/-- `createCursor(item)`: base64 of `` `${item.createdAt}:${item.slug}` ``. -/
def createCursor (item : MediaItem) : String :=
  encodeBase64 (item.createdAt ++ ":" ++ item.slug)

/-- Result of decoding a cursor.  `const [date, slug] = decoded.split(":")`
leaves `slug` as `undefined` when the decoded text has no `:`; the
`undefined` case is modelled by `none`. -/
structure ParsedCursor where
  date : String
  slug : Option String
deriving DecidableEq

/-- The body of `parseCursor`: decode, split on `":"`, destructure the
first two components. -/
def decodeCursor (cursor : String) : ParsedCursor :=
  let decoded := decodeBase64 cursor
  let parts := jsSplit decoded ':'
  { date := parts.headD "", slug := parts[1]? }

/-- `parseCursor(cursor)`.  `Buffer.from(·, "base64")` never throws in
Node, so the `catch` branch that returns `null` is unreachable and the
result is always `some`. -/
def parseCursor (cursor : String) : Option ParsedCursor :=
  some (decodeCursor cursor)

/-- The `findIndex` predicate applied to the parsed cursor:
`item.createdAt === date && item.slug === slug`. -/
def matchesCursor (p : ParsedCursor) (item : MediaItem) : Bool :=
  decide (item.createdAt = p.date) && decide (p.slug = some item.slug)

/-- JS `Array.prototype.findIndex`, with `none` for `-1`. -/
def findIndex (p : α → Bool) : List α → Option Nat
  | [] => none
  | x :: xs => if p x then some 0 else (findIndex p xs).map (· + 1)

/-- `applyFilters(query)`: exactly one base selector, chosen by JS
truthiness (the empty string is falsy) in the order search, type, tag,
all-public. -/
def applyFilters (idx : List MediaItem) (query : FeedQuery) : List MediaItem :=
  match query.search with
  | some s =>
    if s ≠ "" then searchMedia idx s
    else applyFiltersNoSearch idx query
  | none => applyFiltersNoSearch idx query
where
  /-- The `else if (query.type) … else if (query.tag) … else` tail. -/
  applyFiltersNoSearch (idx : List MediaItem) (query : FeedQuery) : List MediaItem :=
    match query.type with
    | some t => getMediaByType idx t
    | none =>
      match query.tag with
      | some g => if g ≠ "" then getMediaByTag idx g else getAllMedia idx false
      | none => getAllMedia idx false

/-- `query.limit || 20` (0 is falsy; the route's validation makes the
limit a positive integer, so 0 is the only falsy value to model). -/
def feedLimit (query : FeedQuery) : Nat :=
  if query.limit = 0 then 20 else query.limit

/-- The cursor-positioning step of `getPaginatedFeed`: starting from the
filtered items, drop everything up to and including the cursor item when
the cursor is present, parses, and matches; otherwise leave the filtered
sequence unchanged. -/
def effectiveItems (idx : List MediaItem) (query : FeedQuery) : List MediaItem :=
  match query.cursor with
  | none => applyFilters idx query
  | some c =>
    match parseCursor c with
    | none => applyFilters idx query
    | some parsed =>
      match findIndex (matchesCursor parsed) (applyFilters idx query) with
      | some cursorIndex => (applyFilters idx query).drop (cursorIndex + 1)
      | none => applyFilters idx query

/-- `getPaginatedFeed(query)`: slice `limit + 1` items to peek at
`hasMore`, return at most `limit`, and emit a cursor made from the last
returned item when more items remain. -/
def getPaginatedFeed (idx : List MediaItem) (query : FeedQuery) : FeedResponse :=
  let limit := feedLimit query
  let pageItems := (effectiveItems idx query).take (limit + 1)
  let hasMore : Bool := decide (pageItems.length > limit)
  let returnItems := if hasMore then pageItems.take limit else pageItems
  let nextCursor :=
    if hasMore then
      match returnItems.getLast? with
      | some last => some (createCursor last)
      | none => none
    else none
  { items := returnItems, nextCursor := nextCursor, hasMore := hasMore }

/-! ## The index builder (content module)

The filesystem directory is modelled as a list of `(filename, parsed MDX
file)` pairs in enumeration order; `gray-matter`'s YAML split is taken as
given (`RawDoc`). -/

/-- `getAllMdxFiles()`: directory entries whose name ends in `.mdx`. -/
def getAllMdxFiles (files : List (String × RawDoc)) : List (String × RawDoc) :=
  files.filter fun f => strEndsWith f.1 ".mdx"

/-- `parseMdxFile(filename)`: validate the frontmatter, derive the slug as
`filename.replace(/\.mdx$/, "")`, and assemble the item; any validation
failure is caught and turned into `null`. -/
def parseMdxFile (filename : String) (doc : RawDoc) : Option MediaItem :=
  match MediaFrontmatterSchema_parse doc.data with
  | none => none
  | some frontmatter =>
    let slug := strStripSuffix filename ".mdx"
    some { toMediaFrontmatter := frontmatter, id := slug, slug := slug,
           content := strTrim doc.content }

/-- The items of the index before sorting: parse every `.mdx` file, keep
the successes, in enumeration order. -/
def unsortedIndex (files : List (String × RawDoc)) : List MediaItem :=
  (getAllMdxFiles files).filterMap fun f => parseMdxFile f.1 f.2

/-- The comparator of `buildMediaIndex`, `(a, b) => dateB - dateA`, as the
boolean "a may precede b" relation: the JS sort places `a` before `b`
exactly when the comparator is `≤ 0`, i.e. when `getTime b ≤ getTime a`. -/
def byCreatedAtDesc (getTime : String → Int) (a b : MediaItem) : Bool :=
  decide (getTime b.createdAt ≤ getTime a.createdAt)

/-- `buildMediaIndex()`: parse everything, then sort by `createdAt`
descending.  `Array.prototype.sort` is stable and the comparator is a
total preorder, so its output coincides with stable merge sort. -/
def buildMediaIndex (getTime : String → Int) (files : List (String × RawDoc)) :
    List MediaItem :=
  List.mergeSort (unsortedIndex files) (byCreatedAtDesc getTime)

/-! ## The index cache (module-level mutable state)

`content.ts` keeps `let cachedIndex: MediaItem[] | null = null` at module
level; `getMediaIndex()` builds on first use.  The state is passed
explicitly. -/

/-- The observable state of the content module: the content directory and
the cache cell. -/
structure ContentState where
  files : List (String × RawDoc)
  cachedIndex : Option (List MediaItem)
deriving DecidableEq

/-- `getMediaIndex()`: return the cache, building it on first call. -/
def getMediaIndexSt (getTime : String → Int) (s : ContentState) :
    List MediaItem × ContentState :=
  match s.cachedIndex with
  | some idx => (idx, s)
  | none =>
    let idx := buildMediaIndex getTime s.files
    (idx, { s with cachedIndex := some idx })

/-- `getPaginatedFeed(query)` at the stateful level: the one chain
`applyFilters → base selector → getAllMedia → getMediaIndex` reads the
cache once; everything after that is pure list slicing. -/
def getPaginatedFeedSt (getTime : String → Int) (query : FeedQuery)
    (s : ContentState) : FeedResponse × ContentState :=
  let r := getMediaIndexSt getTime s
  (getPaginatedFeed r.1 query, r.2)

/-! ## `new Date(s).getTime()` on UTC ISO-8601 strings

The builder's comparator and the authored content use ISO-8601 UTC
timestamps (`toISOString()` output, or date-only strings).  `parseISOTime`
embeds `Date.parse` on exactly these shapes: `YYYY-MM-DD`, optionally
followed by `THH:MM`, `THH:MM:SS` or `THH:MM:SS.mmm`, with a `Z` suffix
for the timed forms; anything else is out of the modelled scope and maps
to `none`. -/

/-- Gregorian leap-year test. -/
def isLeapYear (y : Int) : Bool :=
  (decide (y % 4 = 0) && decide (y % 100 ≠ 0)) || decide (y % 400 = 0)

/-- Days in a month, for date validation. -/
def daysInMonth (y m : Int) : Int :=
  if m = 1 ∨ m = 3 ∨ m = 5 ∨ m = 7 ∨ m = 8 ∨ m = 10 ∨ m = 12 then 31
  else if m = 4 ∨ m = 6 ∨ m = 9 ∨ m = 11 then 30
  else if isLeapYear y then 29 else 28

/-- Days since 1970-01-01 of a civil date (standard era-based
computation). -/
def daysFromCivil (y m d : Int) : Int :=
  let y2 := if m ≤ 2 then y - 1 else y
  let era := (if 0 ≤ y2 then y2 else y2 - 399) / 400
  let yoe := y2 - era * 400
  let mp := (m + 9) % 12
  let doy := (153 * mp + 2) / 5 + d - 1
  let doe := yoe * 365 + yoe / 4 - yoe / 100 + doy
  era * 146097 + doe - 719468

/-- A fixed-width, digits-only field of an ISO timestamp. -/
def parseFixedNat (s : String) (len : Nat) : Option Nat :=
  if s.data.length = len ∧ s.data.all Char.isDigit then some (digitsToNat s.data) else none

/-- The `YYYY-MM-DD` part. -/
def parseDatePart (d : String) : Option (Int × Int × Int) :=
  match jsSplit d '-' with
  | [y, m, dd] => do
    let yy ← parseFixedNat y 4
    let mm ← parseFixedNat m 2
    let da ← parseFixedNat dd 2
    if 1 ≤ mm ∧ mm ≤ 12 ∧ 1 ≤ da ∧ (da : Int) ≤ daysInMonth (yy : Int) (mm : Int)
    then some ((yy : Int), (mm : Int), (da : Int))
    else none
  | _ => none

/-- The `HH:MM[:SS[.mmm]]` part, in milliseconds. -/
def parseTimePart (t : String) : Option Nat :=
  match jsSplit t ':' with
  | [h, m] => do
    let hh ← parseFixedNat h 2
    let mm ← parseFixedNat m 2
    if hh ≤ 23 ∧ mm ≤ 59 then some (((hh * 60 + mm) * 60) * 1000) else none
  | [h, m, secPart] => do
    let hh ← parseFixedNat h 2
    let mm ← parseFixedNat m 2
    let sms ←
      match jsSplit secPart '.' with
      | [sec] => do
        let x ← parseFixedNat sec 2
        some (x, 0)
      | [sec, frac] => do
        let x ← parseFixedNat sec 2
        let f ← parseFixedNat frac 3
        some (x, f)
      | _ => none
    if hh ≤ 23 ∧ mm ≤ 59 ∧ sms.1 ≤ 59
    then some ((((hh * 60 + mm) * 60 + sms.1) * 1000 + sms.2))
    else none
  | _ => none

/-- `Date.parse` on UTC ISO-8601 strings (epoch milliseconds). -/
def parseISOTime (s : String) : Option Int :=
  match jsSplit s 'T' with
  | [d] => do
    let ymd ← parseDatePart d
    some (daysFromCivil ymd.1 ymd.2.1 ymd.2.2 * 86400000)
  | [d, t] => do
    let ymd ← parseDatePart d
    let tms ← if strEndsWith t "Z" then parseTimePart (String.mk t.data.dropLast) else none
    some (daysFromCivil ymd.1 ymd.2.1 ymd.2.2 * 86400000 + (tms : Int))
  | _ => none

/-- A concrete instantiation of the `getTime` parameter, agreeing with
`new Date(s).getTime()` on the modelled ISO-8601 inputs. -/
def getTimeISO (s : String) : Int :=
  (parseISOTime s).getD 0

/-! ## src/app/api/feed/route.ts -/

/-- Value of a hexadecimal digit, `none` otherwise. -/
def hexVal (c : Char) : Option Nat :=
  if '0' ≤ c ∧ c ≤ '9' then some (c.toNat - 48)
  else if 'a' ≤ c ∧ c ≤ 'f' then some (c.toNat - 97 + 10)
  else if 'A' ≤ c ∧ c ≤ 'F' then some (c.toNat - 65 + 10)
  else none

/-- `Number.parseInt(s)` with the radix argument left undefined, as in the
route: skip leading whitespace, take an optional sign, then — per the
ECMAScript `parseInt` algorithm — a `0x`/`0X` prefix switches to radix 16
(consuming the prefix; no hex digit after it is `NaN`), otherwise the
leading run of decimal digits is taken; `none` models `NaN`. -/
def jsParseInt (s : String) : Option Int :=
  let cs := s.data.dropWhile Char.isWhitespace
  match cs with
  | '-' :: rest => (leadingNat rest).map fun n => -(n : Int)
  | '+' :: rest => (leadingNat rest).map fun n => (n : Int)
  | rest => (leadingNat rest).map fun n => (n : Int)
where
  /-- The value of the leading run of decimal digits, `none` if there is
  none. -/
  decimalNat (cs : List Char) : Option Nat :=
    let ds := cs.takeWhile Char.isDigit
    if ds.isEmpty then none
    else some (ds.foldl (fun acc c => acc * 10 + (c.toNat - 48)) 0)
  /-- The unsigned value after sign processing: hex after a `0x`/`0X`
  prefix, decimal otherwise. -/
  leadingNat (cs : List Char) : Option Nat :=
    match cs with
    | '0' :: c :: rest =>
      if c = 'x' ∨ c = 'X' then
        let ds := rest.takeWhile fun d => (hexVal d).isSome
        if ds.isEmpty then none
        else some (ds.foldl (fun acc d => acc * 16 + (hexVal d).getD 0) 0)
      else decimalNat cs
    | _ => decimalNat cs

/-- The raw query string parameters of a `/api/feed` request (`none` =
parameter absent). -/
structure RawQuery where
  cursor : Option String
  limit : Option String
  type : Option String
  tag : Option String
  search : Option String
deriving DecidableEq

/-- The route's `searchParams.get(x) || undefined`: an absent or empty
parameter becomes `undefined`. -/
def presentParam : Option String → Option String
  | none => none
  | some s => if s = "" then none else some s

/-- The route's outcome: a JSON 200 with the feed page, or the 400
`{ error: "Invalid request parameters" }` produced by the catch-all. -/
inductive RouteResult where
  | ok (response : FeedResponse)
  | clientError
deriving DecidableEq

/-- zod's `limit` field: `z.number().min(1).max(100).default(20)` applied
to `undefined` (outer `none`), `NaN` (inner `none`, zod rejects `NaN` for
`z.number()`) or an integer. -/
def zLimitField : Option (Option Int) → Option Nat
  | none => some 20
  | some none => none
  | some (some n) => if 1 ≤ n ∧ n ≤ 100 then some n.toNat else none

/-- zod's optional `type` field on the raw string parameter. -/
def zTypeOptField : Option String → Option (Option MediaType)
  | none => some none
  | some s =>
    match parseMediaType s with
    | some t => some (some t)
    | none => none

/-- `GET /api/feed`: coerce empty parameters to `undefined`, `parseInt`
the limit, validate through `FeedQuerySchema`, and either serve
`getPaginatedFeed` or answer 400 when validation throws. -/
def feedGET (idx : List MediaItem) (p : RawQuery) : RouteResult :=
  let limitRaw : Option (Option Int) :=
    match presentParam p.limit with
    | none => none
    | some s => some (jsParseInt s)
  match zLimitField limitRaw, zTypeOptField (presentParam p.type) with
  | some limit, some mtype =>
    RouteResult.ok (getPaginatedFeed idx
      { cursor := presentParam p.cursor, limit := limit, type := mtype,
        tag := presentParam p.tag, search := presentParam p.search })
  | _, _ => RouteResult.clientError

/-! ## The specification's slug normalisation

The spec derives slugs by lowercasing, collapsing runs of non-alphanumeric
characters to single hyphens, and stripping leading/trailing hyphens.
`slugifySpec` follows those words (it is the comparison definition for the
slug-derivation claim; the builder's own slug computation lives in
`parseMdxFile`). -/

/-- Collapse each run of non-alphanumeric characters to one hyphen,
lowercasing the rest; the flag records whether the previous character was
part of a non-alphanumeric run. -/
def collapseRunsAux : Bool → List Char → List Char
  | _, [] => []
  | inRun, c :: cs =>
    if c.isAlphanum then c.toLower :: collapseRunsAux false cs
    else if inRun then collapseRunsAux true cs
    else '-' :: collapseRunsAux true cs

/-- Collapse runs of non-alphanumeric characters, lowercasing the rest. -/
def collapseRuns (cs : List Char) : List Char :=
  collapseRunsAux false cs

/-- Slug derivation as the specification words it. -/
def slugifySpec (text : String) : String :=
  let collapsed := collapseRuns text.data
  let noLead := collapsed.dropWhile fun c => c = '-'
  let noTrail := (noLead.reverse.dropWhile fun c => c = '-').reverse
  String.mk noTrail

/-! ## Concrete test data -/

/-- A minimal public video item: what `parseMdxFile` produces from a file
`slug.mdx` whose frontmatter has title = slug, the given `createdAt`, type
`video`, empty assets, and every defaulted field left to its default. -/
def mkItem (createdAt slug : String) : MediaItem :=
  { title := slug, createdAt := createdAt, type := MediaType.video,
    source := MediaSource.sora, sora := none,
    assets := { poster := none, src := none, sources := none, width := none,
                height := none, durationSec := none, embedUrl := none },
    tags := [], description := none, visibility := Visibility.public,
    id := slug, slug := slug, content := "" }

/-- Minimal valid raw frontmatter: required keys present with string
values, everything else absent (so the zod defaults apply). -/
def rawData (title createdAt : String) : RawFrontmatter :=
  { title := some (JPrim.str title), createdAt := some (JPrim.str createdAt),
    type := some (JPrim.str "video"), source := none, visibility := none,
    tags := none, description := none, sora := none,
    assets := some { poster := none, src := none, sources := none,
                     width := none, height := none, durationSec := none,
                     embedUrl := none } }

/-- A feed query with no filters and no cursor. -/
def plainQuery (limit : Nat) : FeedQuery :=
  { cursor := none, limit := limit, type := none, tag := none, search := none }

/-! ## C1: pagination completeness falls to the cursor encoding

`createCursor` produces `base64(createdAt + ":" + slug)` while
`parseCursor` destructures `decoded.split(":")` into its first two
components.  `createdAt` is an ISO-8601 timestamp — the repo's own
authoring scripts write `new Date().toISOString()` — which itself contains
`:`.  The decoded cursor therefore never matches any item, the engine
restarts from the top of the filtered sequence, and pagination repeats the
first page forever. -/

def c1ItemA : MediaItem := mkItem "2025-01-02T10:00:00Z" "a"

def c1ItemB : MediaItem := mkItem "2025-01-01T09:00:00Z" "b"

def c1Idx : List MediaItem := [c1ItemA, c1ItemB]

/-- C1: with two items carrying real ISO timestamps and `limit = 1`, the
first call returns item `a` with `hasMore = true` and a cursor; feeding
that cursor back returns item `a` again with `hasMore = true` — the run
yields item `a` twice, item `b` is unreachable, and the sequence of calls
never terminates with `hasMore = false`, refuting exactly-once delivery. -/
theorem getPaginatedFeed_colon_cursor_restarts :
    (getPaginatedFeed c1Idx (plainQuery 1)).items = [c1ItemA] ∧
    (getPaginatedFeed c1Idx (plainQuery 1)).hasMore = true ∧
    (getPaginatedFeed c1Idx (plainQuery 1)).nextCursor = some (createCursor c1ItemA) ∧
    decodeCursor (createCursor c1ItemA) =
      { date := "2025-01-02T10", slug := some "00" } ∧
    (getPaginatedFeed c1Idx
      { plainQuery 1 with cursor := some (createCursor c1ItemA) }).items = [c1ItemA] ∧
    (getPaginatedFeed c1Idx
      { plainQuery 1 with cursor := some (createCursor c1ItemA) }).hasMore = true := by
  decide

/-! ## C2: a returned cursor does not resume after its originating item -/

def c2ItemX : MediaItem := mkItem "2025-03-05T12:30:45Z" "x"

def c2ItemY : MediaItem := mkItem "2025-03-04T11:00:00Z" "y"

def c2Idx : List MediaItem := [c2ItemX, c2ItemY]

/-- C2: the engine issues `createCursor c2ItemX` as `nextCursor` for the
first page; feeding it back re-includes the originating item `x` instead
of resuming at `y`, because the decoded `(date, slug)` pair
`("2025-03-05T12", "30")` — truncated at the colons of the ISO timestamp —
matches no item. -/
theorem cursor_resume_reincludes_origin :
    (getPaginatedFeed c2Idx (plainQuery 1)).nextCursor = some (createCursor c2ItemX) ∧
    (getPaginatedFeed c2Idx
      { plainQuery 1 with cursor := some (createCursor c2ItemX) }).items = [c2ItemX] ∧
    c2ItemX ∈ (getPaginatedFeed c2Idx
      { plainQuery 1 with cursor := some (createCursor c2ItemX) }).items := by
  decide

/-! ## C3: sort order of the built index -/

def c3ItemB : MediaItem := { mkItem "2025-05-01T00:00:00Z" "b" with title := "B" }

def c3ItemA : MediaItem := { mkItem "2025-05-01T00:00:00Z" "a" with title := "A" }

def c3Files : List (String × RawDoc) :=
  [("b.mdx", { data := rawData "B" "2025-05-01T00:00:00Z", content := "" }),
   ("a.mdx", { data := rawData "A" "2025-05-01T00:00:00Z", content := "" })]

/-- C3 counterexample: two records with the same `createdAt`, enumerated
as `b.mdx` then `a.mdx`, stay in enumeration order `["b", "a"]` in the
built index even though `"a" < "b"` — the comparator has no slug
tiebreak, so "ties broken by slug ascending" fails. -/
theorem buildMediaIndex_no_slug_tiebreak_cex :
    buildMediaIndex getTimeISO c3Files = [c3ItemB, c3ItemA] ∧
    c3ItemB.createdAt = c3ItemA.createdAt ∧
    strLexLt c3ItemA.slug c3ItemB.slug = true := by
  refine ⟨?_, by decide, by decide⟩
  have h1 : unsortedIndex c3Files = [c3ItemB, c3ItemA] := by decide
  unfold buildMediaIndex
  rw [h1]
  apply List.mergeSort_of_sorted
  decide

/-- C3 amended: the index is sorted by parsed `createdAt` descending (for
every pair in index order the earlier item's timestamp is `≥` the later
one's), and items with equal timestamps keep their relative source
enumeration order (stable sort) instead of being reordered by slug. -/
theorem buildMediaIndex_sorted_createdAt_desc (getTime : String → Int)
    (files : List (String × RawDoc)) :
    (buildMediaIndex getTime files).Pairwise
      (fun a b => getTime b.createdAt ≤ getTime a.createdAt) ∧
    (∀ a b : MediaItem, getTime a.createdAt = getTime b.createdAt →
      List.Sublist [a, b] (unsortedIndex files) →
      List.Sublist [a, b] (buildMediaIndex getTime files)) := by
  have htrans : ∀ a b c : MediaItem, byCreatedAtDesc getTime a b →
      byCreatedAtDesc getTime b c → byCreatedAtDesc getTime a c := by
    intro a b c hab hbc
    simp only [byCreatedAtDesc, decide_eq_true_eq] at hab hbc ⊢
    exact le_trans hbc hab
  have htotal : ∀ a b : MediaItem,
      byCreatedAtDesc getTime a b || byCreatedAtDesc getTime b a := by
    intro a b
    simp only [byCreatedAtDesc, Bool.or_eq_true, decide_eq_true_eq]
    exact Int.le_total _ _
  constructor
  · have h := List.sorted_mergeSort htrans htotal (unsortedIndex files)
    exact h.imp fun hab => by
      simpa only [byCreatedAtDesc, decide_eq_true_eq] using hab
  · intro a b heq hsub
    apply List.pair_sublist_mergeSort htrans htotal _ hsub
    simp only [byCreatedAtDesc, decide_eq_true_eq, heq, le_refl]

/-- Witness for the amended C3 statement: the tied pair of `c3Files` stays
in enumeration order inside the built index. -/
theorem buildMediaIndex_sorted_createdAt_desc_witness :
    List.Sublist [c3ItemB, c3ItemA] (buildMediaIndex getTimeISO c3Files) :=
  (buildMediaIndex_sorted_createdAt_desc getTimeISO c3Files).2 c3ItemB c3ItemA
    (by decide) (by decide)

/-! ## C4: what the schema really checks about `createdAt` -/

/-- Whether a raw frontmatter value is a present string. -/
def isStrPrim : Option JPrim → Bool
  | some (JPrim.str _) => true
  | _ => false

def c4Files : List (String × RawDoc) :=
  [("bad-date.mdx", { data := rawData "Bad" "definitely-not-a-date", content := "" })]

/-- C4 counterexample: `MediaFrontmatterSchema` validates `createdAt` as
`z.string()` only, so a record whose `createdAt` string does not parse to
any timestamp is still included in the built index, contradicting "the
record is excluded". -/
theorem buildMediaIndex_keeps_unparseable_createdAt_cex :
    parseISOTime "definitely-not-a-date" = none ∧
    (buildMediaIndex getTimeISO c4Files).map (fun item => item.slug) = ["bad-date"] := by
  have h1 : unsortedIndex c4Files =
      [{ mkItem "definitely-not-a-date" "bad-date" with title := "Bad" }] := by decide
  refine ⟨by decide, ?_⟩
  unfold buildMediaIndex
  rw [h1, List.mergeSort_of_sorted (by decide)]
  decide

/-- C4 amended: what the build really excludes is a record whose
frontmatter fails schema validation — for `createdAt` that means a missing
key or a non-string value; such a record is dropped and the rest of the
build succeeds unchanged.  A `createdAt` that is a string is accepted even
when it parses to no valid timestamp. -/
theorem buildMediaIndex_excludes_invalid_frontmatter
    (getTime : String → Int) (pre post : List (String × RawDoc))
    (fname : String) (doc : RawDoc)
    (hbad : isStrPrim doc.data.createdAt = false) :
    MediaFrontmatterSchema_parse doc.data = none ∧
    buildMediaIndex getTime (pre ++ (fname, doc) :: post) =
      buildMediaIndex getTime (pre ++ post) := by
  have h1 : zReqString doc.data.createdAt = none := by
    cases hz : doc.data.createdAt with
    | none => rfl
    | some p =>
      cases p with
      | str s => rw [hz] at hbad; simp [isStrPrim] at hbad
      | num n => rfl
      | boolean b => rfl
      | null => rfl
  have hparse : MediaFrontmatterSchema_parse doc.data = none := by
    unfold MediaFrontmatterSchema_parse
    cases ht : zReqString doc.data.title <;> simp [ht, h1]
  have hskip : parseMdxFile fname doc = none := by
    unfold parseMdxFile
    rw [hparse]
  refine ⟨hparse, ?_⟩
  have hidx : unsortedIndex (pre ++ (fname, doc) :: post) = unsortedIndex (pre ++ post) := by
    unfold unsortedIndex getAllMdxFiles
    by_cases hmdx : strEndsWith fname ".mdx" = true
    · simp [List.filter_append, List.filter_cons, hmdx, List.filterMap_append,
            List.filterMap_cons, hskip]
    · simp [List.filter_append, List.filter_cons, hmdx, List.filterMap_append]
  unfold buildMediaIndex
  rw [hidx]

def w4DocGood : RawDoc := { data := rawData "Good" "2025-06-01", content := "" }

def w4DocBad : RawDoc :=
  { data := { rawData "Oops" "unused" with createdAt := some (JPrim.num 20250101) },
    content := "" }

/-- Witness for the amended C4 statement: a numeric `createdAt` fails
validation and drops exactly that record. -/
theorem buildMediaIndex_excludes_invalid_frontmatter_witness :
    MediaFrontmatterSchema_parse w4DocBad.data = none ∧
    buildMediaIndex getTimeISO ([("good.mdx", w4DocGood)] ++ ("oops.mdx", w4DocBad) :: []) =
      buildMediaIndex getTimeISO ([("good.mdx", w4DocGood)] ++ []) :=
  buildMediaIndex_excludes_invalid_frontmatter getTimeISO
    [("good.mdx", w4DocGood)] [] "oops.mdx" w4DocBad (by decide)

/-! ## C5: filter precedence -/

/-- C5: exactly one base selector applies, in the precedence
search > type > tag > all-public, under JS truthiness (a supplied empty
search or tag string is falsy and therefore skipped): a non-empty search
makes the result `searchMedia` regardless of `type` and `tag`; with no
effective search, a present `type` makes it `getMediaByType` regardless of
`tag`; then a non-empty `tag` selects `getMediaByTag`; otherwise all
public records. -/
theorem applyFilters_precedence (idx : List MediaItem) (q : FeedQuery) :
    (∀ s, q.search = some s → s ≠ "" → applyFilters idx q = searchMedia idx s) ∧
    ((q.search = none ∨ q.search = some "") → ∀ t, q.type = some t →
      applyFilters idx q = getMediaByType idx t) ∧
    ((q.search = none ∨ q.search = some "") → q.type = none →
      ∀ g, q.tag = some g → g ≠ "" → applyFilters idx q = getMediaByTag idx g) ∧
    ((q.search = none ∨ q.search = some "") → q.type = none →
      (q.tag = none ∨ q.tag = some "") → applyFilters idx q = getAllMedia idx false) := by
  refine ⟨?_, ?_, ?_, ?_⟩
  · intro s hs hne
    simp [applyFilters, hs, hne]
  · rintro (hs | hs) t ht <;>
      simp [applyFilters, applyFilters.applyFiltersNoSearch, hs, ht]
  · rintro (hs | hs) ht g hg hne <;>
      simp [applyFilters, applyFilters.applyFiltersNoSearch, hs, ht, hg, hne]
  · rintro (hs | hs) ht (hg | hg) <;>
      simp [applyFilters, applyFilters.applyFiltersNoSearch, hs, ht, hg]

def w5Item : MediaItem := { mkItem "2025-01-01" "xmatch" with title := "hello x" }

def w5Query : FeedQuery :=
  { cursor := none, limit := 20, type := some MediaType.video,
    tag := some "t", search := some "x" }

/-- Witness for C5: with both `search = "x"` and `type = video` supplied,
only the search selector applies. -/
theorem applyFilters_precedence_witness :
    applyFilters [w5Item] w5Query = searchMedia [w5Item] "x" :=
  (applyFilters_precedence [w5Item] w5Query).1 "x" rfl (by decide)

/-! ## C6: malformed or non-matching cursors degrade to the first page -/

/-- C6: if the supplied cursor — malformed garbage or a well-formed token
whose decoded `(date, slug)` pair matches no record of the filtered
sequence — produces no `findIndex` hit, `getPaginatedFeed` returns exactly
the result of the same query without a cursor; no error is surfaced
(`getPaginatedFeed` is total). -/
theorem getPaginatedFeed_unmatched_cursor_restart
    (idx : List MediaItem) (q : FeedQuery) (c : String)
    (hc : q.cursor = some c)
    (hmiss : findIndex (matchesCursor (decodeCursor c)) (applyFilters idx q) = none) :
    getPaginatedFeed idx q = getPaginatedFeed idx { q with cursor := none } := by
  have hfilters : applyFilters idx { q with cursor := none } = applyFilters idx q := rfl
  have heff : effectiveItems idx q = effectiveItems idx { q with cursor := none } := by
    unfold effectiveItems
    rw [hc]
    simp only [parseCursor, hfilters, hmiss]
  have hlim : feedLimit { q with cursor := none } = feedLimit q := rfl
  unfold getPaginatedFeed
  rw [heff, hlim]

def w6Idx : List MediaItem :=
  [mkItem "2025-02-01T00:00:00Z" "alpha", mkItem "2025-01-15T00:00:00Z" "beta"]

/-- Witness for C6: the malformed cursor string `"not-base64-garbage"`
behaves exactly like no cursor at all. -/
theorem getPaginatedFeed_unmatched_cursor_restart_witness :
    getPaginatedFeed w6Idx { plainQuery 1 with cursor := some "not-base64-garbage" } =
      getPaginatedFeed w6Idx
        { ({ plainQuery 1 with cursor := some "not-base64-garbage" } : FeedQuery)
          with cursor := none } :=
  getPaginatedFeed_unmatched_cursor_restart w6Idx
    { plainQuery 1 with cursor := some "not-base64-garbage" }
    "not-base64-garbage" rfl (by decide)

/-! ## C7: limit validation at the feed route -/

/-- Every page holds at most `feedLimit q` items. -/
theorem getPaginatedFeed_items_length_le (idx : List MediaItem) (q : FeedQuery) :
    (getPaginatedFeed idx q).items.length ≤ feedLimit q := by
  simp only [getPaginatedFeed]
  split
  · exact List.length_take_le _ _
  · rename_i hfalse
    simp only [decide_eq_true_eq, Nat.not_lt] at hfalse
    exact hfalse

/-- C7: a supplied `limit` parameter that `parseInt`s to nothing or to an
integer outside `[1,100]` makes `GET /api/feed` answer the 400 client
error (no silent clamping); a limit inside the range, or an absent one
(default 20), produces a page of at most that many items. -/
theorem feedRoute_limit_validation (idx : List MediaItem) (p : RawQuery) :
    (∀ s, p.limit = some s → s ≠ "" → jsParseInt s = none →
      feedGET idx p = RouteResult.clientError) ∧
    (∀ s n, p.limit = some s → s ≠ "" → jsParseInt s = some n →
      (n < 1 ∨ 100 < n) → feedGET idx p = RouteResult.clientError) ∧
    (∀ s n, p.limit = some s → s ≠ "" → jsParseInt s = some n →
      1 ≤ n → n ≤ 100 → zTypeOptField (presentParam p.type) ≠ none →
      ∃ r, feedGET idx p = RouteResult.ok r ∧ (r.items.length : Int) ≤ n) ∧
    ((p.limit = none ∨ p.limit = some "") →
      zTypeOptField (presentParam p.type) ≠ none →
      ∃ r, feedGET idx p = RouteResult.ok r ∧ r.items.length ≤ 20) := by
  refine ⟨?_, ?_, ?_, ?_⟩
  · intro s hs hne hp
    unfold feedGET
    rw [hs]
    simp [presentParam, hne, hp, zLimitField]
  · intro s n hs hne hp hout
    have hcond : ¬ (1 ≤ n ∧ n ≤ 100) := by omega
    unfold feedGET
    rw [hs]
    simp [presentParam, hne, hp, zLimitField, hcond]
  · intro s n hs hne hp h1 h100 htype
    obtain ⟨mt, hmt⟩ := Option.ne_none_iff_exists'.mp htype
    have hcond : 1 ≤ n ∧ n ≤ 100 := ⟨h1, h100⟩
    have hq : feedGET idx p = RouteResult.ok (getPaginatedFeed idx
        { cursor := presentParam p.cursor, limit := n.toNat, type := mt,
          tag := presentParam p.tag, search := presentParam p.search }) := by
      unfold feedGET
      rw [hs, hmt]
      simp [presentParam, hne, hp, zLimitField, hcond]
    refine ⟨_, hq, ?_⟩
    have hlen := getPaginatedFeed_items_length_le idx
      { cursor := presentParam p.cursor, limit := n.toNat, type := mt,
        tag := presentParam p.tag, search := presentParam p.search }
    have hfl : feedLimit
        { cursor := presentParam p.cursor, limit := n.toNat, type := mt,
          tag := presentParam p.tag, search := presentParam p.search } = n.toNat := by
      have hnz : n.toNat ≠ 0 := by omega
      simp [feedLimit, hnz]
    rw [hfl] at hlen
    omega
  · intro hs htype
    obtain ⟨mt, hmt⟩ := Option.ne_none_iff_exists'.mp htype
    have hq : feedGET idx p = RouteResult.ok (getPaginatedFeed idx
        { cursor := presentParam p.cursor, limit := 20, type := mt,
          tag := presentParam p.tag, search := presentParam p.search }) := by
      unfold feedGET
      rw [hmt]
      rcases hs with hs | hs <;> rw [hs] <;> simp [presentParam, zLimitField]
    refine ⟨_, hq, ?_⟩
    have hlen := getPaginatedFeed_items_length_le idx
      { cursor := presentParam p.cursor, limit := 20, type := mt,
        tag := presentParam p.tag, search := presentParam p.search }
    simpa [feedLimit] using hlen

def w7Idx : List MediaItem := [mkItem "2025-09-01" "w7"]

def w7BadQuery : RawQuery :=
  { cursor := none, limit := some "0", type := none, tag := none, search := none }

def w7GoodQuery : RawQuery :=
  { cursor := none, limit := some "7", type := none, tag := none, search := none }

def w7HexQuery : RawQuery :=
  { cursor := none, limit := some "0x10", type := none, tag := none, search := none }

/-- Witness for C7: `limit=0` is rejected with the client error, while
`limit=7` succeeds with at most 7 items, and the hex form `limit=0x10`
(which `parseInt` reads as 16) succeeds with at most 16 items. -/
theorem feedRoute_limit_validation_witness :
    feedGET w7Idx w7BadQuery = RouteResult.clientError ∧
    (∃ r, feedGET w7Idx w7GoodQuery = RouteResult.ok r ∧ (r.items.length : Int) ≤ 7) ∧
    (∃ r, feedGET w7Idx w7HexQuery = RouteResult.ok r ∧ (r.items.length : Int) ≤ 16) :=
  ⟨(feedRoute_limit_validation w7Idx w7BadQuery).2.1 "0" 0 rfl (by decide)
      (by decide) (by decide),
   (feedRoute_limit_validation w7Idx w7GoodQuery).2.2.1 "7" 7 rfl (by decide)
      (by decide) (by decide) (by decide) (by decide),
   (feedRoute_limit_validation w7Idx w7HexQuery).2.2.1 "0x10" 16 rfl (by decide)
      (by decide) (by decide) (by decide) (by decide)⟩

/-! ## C8: how the builder derives slugs -/

def c8Doc : RawDoc := { data := rawData "Shout" "2025-04-01", content := "Body" }

/-- C8 counterexample: the index builder keeps the raw filename (minus
`.mdx`) as the slug — `"My File!.mdx"` yields slug `"My File!"`, not the
lowercased, hyphen-collapsed form the claim describes (which `slugifySpec`
computes, whether applied to the stem or the whole filename). -/
theorem parseMdxFile_slug_not_normalized_cex :
    (parseMdxFile "My File!.mdx" c8Doc).map (fun item => item.slug) = some "My File!" ∧
    slugifySpec "My File!" = "my-file" ∧
    slugifySpec "My File!.mdx" = "my-file-mdx" ∧
    ("My File!" : String) ≠ "my-file" ∧ ("My File!" : String) ≠ "my-file-mdx" := by
  decide

/-- C8 amended: the slug (and `id`) assigned by the index builder is the
source filename with one trailing `.mdx` removed, taken verbatim — no
lowercasing, collapsing, or hyphen stripping (the normalisation the claim
describes happens only in the out-of-scope authoring script, which chooses
the filename in the first place). -/
theorem parseMdxFile_slug_strips_mdx (fname : String) (doc : RawDoc)
    (item : MediaItem) (h : parseMdxFile fname doc = some item) :
    item.slug = strStripSuffix fname ".mdx" ∧ item.id = strStripSuffix fname ".mdx" := by
  unfold parseMdxFile at h
  cases hp : MediaFrontmatterSchema_parse doc.data with
  | none => rw [hp] at h; cases h
  | some fm =>
    rw [hp] at h
    cases h
    exact ⟨rfl, rfl⟩

def w8Doc : RawDoc := { data := rawData "W8" "2025-07-01", content := " body " }

def w8Item : MediaItem := (parseMdxFile "Clip One.mdx" w8Doc).getD (mkItem "" "")

/-- Witness for the amended C8 statement. -/
theorem parseMdxFile_slug_strips_mdx_witness :
    w8Item.slug = strStripSuffix "Clip One.mdx" ".mdx" ∧
    w8Item.id = strStripSuffix "Clip One.mdx" ".mdx" :=
  parseMdxFile_slug_strips_mdx "Clip One.mdx" w8Doc w8Item (by decide)

/-! ## C9: the feed never leaks unlisted records -/

/-- Members of `getAllMedia idx false` are public. -/
theorem mem_getAllMedia_public {idx : List MediaItem} {item : MediaItem}
    (h : item ∈ getAllMedia idx false) : item.visibility = Visibility.public := by
  simp only [getAllMedia, Bool.false_eq_true, if_false, List.mem_filter,
    decide_eq_true_eq] at h
  exact h.2

/-- Members of any branch of `applyFilters` are public. -/
theorem mem_applyFilters_public {idx : List MediaItem} {q : FeedQuery}
    {item : MediaItem} (h : item ∈ applyFilters idx q) :
    item.visibility = Visibility.public := by
  have hno : ∀ q' : FeedQuery, item ∈ applyFilters.applyFiltersNoSearch idx q' →
      item.visibility = Visibility.public := by
    intro q' h'
    unfold applyFilters.applyFiltersNoSearch at h'
    split at h'
    · exact mem_getAllMedia_public (List.mem_filter.mp h').1
    · split at h'
      · split at h'
        · exact mem_getAllMedia_public (List.mem_filter.mp h').1
        · exact mem_getAllMedia_public h'
      · exact mem_getAllMedia_public h'
  unfold applyFilters at h
  split at h
  · split at h
    · exact mem_getAllMedia_public (List.mem_filter.mp h).1
    · exact hno _ h
  · exact hno _ h

/-- C9: every item returned by `getPaginatedFeed` — under any combination
of search, type, tag, cursor, and limit — has `visibility = public`;
unlisted records never reach the feed surface (the pagination engine has
no include-unlisted flag to pass). -/
theorem getPaginatedFeed_only_public (idx : List MediaItem) (q : FeedQuery)
    (item : MediaItem) (h : item ∈ (getPaginatedFeed idx q).items) :
    item.visibility = Visibility.public := by
  have h1 : item ∈ (effectiveItems idx q).take (feedLimit q + 1) := by
    simp only [getPaginatedFeed] at h
    split at h
    · exact List.mem_of_mem_take h
    · exact h
  have h2 : item ∈ effectiveItems idx q := List.mem_of_mem_take h1
  have h3 : item ∈ applyFilters idx q := by
    unfold effectiveItems at h2
    split at h2
    · exact h2
    · split at h2
      · exact h2
      · split at h2
        · exact List.mem_of_mem_drop h2
        · exact h2
  exact mem_applyFilters_public h3

def w9Item : MediaItem := mkItem "2025-08-01" "w9"

/-- Witness for C9 at a concrete page. -/
theorem getPaginatedFeed_only_public_witness :
    w9Item.visibility = Visibility.public :=
  getPaginatedFeed_only_public [w9Item] (plainQuery 20) w9Item (by decide)

/-! ## C10: a feed request leaves the cached index observably unchanged -/

/-- C10: for every query and every starting state of the content module,
the index returned by `getMediaIndex` after `getPaginatedFeed` ran is
element-for-element the one returned before (the request at most fills an
empty cache with the same index it then reads; filtering and slicing are
pure). -/
theorem getPaginatedFeedSt_preserves_index (getTime : String → Int)
    (q : FeedQuery) (s : ContentState) :
    (getMediaIndexSt getTime (getPaginatedFeedSt getTime q s).2).1 =
      (getMediaIndexSt getTime s).1 := by
  cases h : s.cachedIndex <;>
    simp [getPaginatedFeedSt, getMediaIndexSt, h]

end Stupid
